import Mathlib

/-!
Verification of the GPU worker subsystem of the duckstation repository
(src/core/gpu_thread.cpp and src/core/gpu_sw.cpp) against its
natural-language specification.  The C++ is shallowly embedded: machine
integers become `Nat`/`Int` with explicit wrap where overflow matters,
the producer/consumer ring is modelled by explicit cursor arithmetic,
and each worker routine becomes a pure Lean function mirroring the
control flow of the source line by line.
-/

namespace GPUThread

/-- Constant from gpu_thread.cpp line 50: `COMMAND_QUEUE_SIZE = 16 * 1024 * 1024`. -/
def COMMAND_QUEUE_SIZE : Nat := 16 * 1024 * 1024

/-- Constant from gpu_thread.cpp line 51: `THRESHOLD_TO_WAKE_GPU = 65536`. -/
def THRESHOLD_TO_WAKE_GPU : Nat := 65536

/-- Constant from gpu_thread.cpp line 52: `MAX_SKIPPED_PRESENT_COUNT = 50`. -/
def MAX_SKIPPED_PRESENT_COUNT : Nat := 50

/-- Modelled from the spec: the command-slot header is
`{ type: u8, size: u32, params: u16 }` (spec section 3, "Command slot");
the defining header gpu_types.h is not part of the provided sources.
With natural C layout (u32 at offset 0, u8 at 4, u16 at 6) the header
struct `GPUBackendCommand` occupies 8 bytes. -/
def SIZEOF_GPUBackendCommand : Nat := 8

/-- Modelled from the spec: `type` is a `u8` (spec section 3), so
`sizeof(GPUBackendCommandType) = 1`.  Used in the producer spin loop of
`AllocateCommand` (gpu_thread.cpp line 225). -/
def SIZEOF_GPUBackendCommandType : Nat := 1

/-- `Common::AlignUpPow2(size, 4)` from gpu_thread.cpp line 216. -/
def alignUp4 (size : Nat) : Nat := ((size + 3) / 4) * 4

/-- Result of one `AllocateCommand` call: the offset at which the command
header was written, together with the list of `Wraparound` dummy slots
written on the way, as pairs (offset, size). -/
structure AllocResult where
  offset : Nat
  wraps : List (Nat × Nat)
deriving DecidableEq, Repr

/-- Shallow embedding of the `for (;;)` loop of `GPUThread::AllocateCommand`
(gpu_thread.cpp lines 218-251), for a quiescent consumer: the read cursor
does not move while the producer allocates.  `size` is already aligned.
If `read > write` the code spins until `read - write >=
size + sizeof(GPUBackendCommandType)`; with a quiescent consumer an
unsatisfied spin never terminates, which the model maps to `none`.
Otherwise, if `size + sizeof(GPUBackendCommand)` exceeds the tail
`COMMAND_QUEUE_SIZE - write`, a `Wraparound` dummy of exactly the tail
size is written at `write`, the write cursor is reset to 0 and the loop
retries; else the command is placed at `write`. -/
def allocLoop (fuel : Nat) (read write size : Nat) : Option AllocResult :=
  match fuel with
  | 0 => none
  | fuel + 1 =>
    if read > write then
      if read - write < size + SIZEOF_GPUBackendCommandType then none
      else some ⟨write, []⟩
    else
      let available := COMMAND_QUEUE_SIZE - write
      if size + SIZEOF_GPUBackendCommand > available then
        (allocLoop fuel read 0 size).map fun r => ⟨r.offset, (write, available) :: r.wraps⟩
      else
        some ⟨write, []⟩

/-- `GPUThread::AllocateCommand` (gpu_thread.cpp lines 213-252) under a
quiescent consumer.  The requested size is first aligned up to 4 bytes.
Fuel 3 suffices for every terminating execution with a quiescent
consumer (at most one wraparound retry plus the final placement). -/
def AllocateCommand (read write size : Nat) : Option AllocResult :=
  allocLoop 3 read write (alignUp4 size)

/-- `GPUThread::GetPendingCommandSize` (gpu_thread.cpp lines 254-259). -/
def GetPendingCommandSize (read write : Nat) : Nat :=
  if write ≥ read then write - read else COMMAND_QUEUE_SIZE - read + write

/-- `GPUThread::PushCommand` (gpu_thread.cpp lines 261-268): the write
cursor is advanced by the slot size (u32 `fetch_add`, wrapping mod 2^32)
and the consumer is woken iff the pending byte count afterwards is at
least `THRESHOLD_TO_WAKE_GPU`.  Returns (new write cursor, woke?). -/
def PushCommand (read write size : Nat) : Nat × Bool :=
  let write2 := (write + size) % 2 ^ 32
  (write2, GetPendingCommandSize read write2 ≥ THRESHOLD_TO_WAKE_GPU)

/-- The pending byte count as the claim words it: the distance from
`read` to `write` around the ring, accounting for wraparound. -/
def ringDistance (read write : Nat) : Nat :=
  if read ≤ write then write - read else COMMAND_QUEUE_SIZE + write - read

/-- Two's-complement interpretation of a 32-bit pattern, for the signed
wake counter `thread_wake_count` (an `std::atomic<s32>`). -/
def toS32 (n : Nat) : Int :=
  if n < 2 ^ 31 then (n : Int) else (n : Int) - 2 ^ 32

/-- Bit pattern of `THREAD_WAKE_COUNT_SLEEPING = -1` (gpu_thread.cpp line 56). -/
def SLEEPING_PATTERN : Nat := 2 ^ 32 - 1

/-- `GetThreadWakeCount` (gpu_thread.cpp lines 297-300):
`state & ~THREAD_WAKE_COUNT_CPU_THREAD_IS_WAITING`, i.e. clear bit 30 of
the 32-bit pattern; the result is again read as a signed value. -/
def GetThreadWakeCount (n : Nat) : Int :=
  toS32 (n &&& 0xBFFFFFFF)

/-- `GPUThread::WakeGPUThread` (gpu_thread.cpp lines 302-308) acting on
the 32-bit pattern `n` of the wake counter: `fetch_add(2)` wraps mod
2^32 and the consumer's semaphore is posted iff the value before the add
was negative.  Returns (new pattern, posted?). -/
def WakeGPUThread (n : Nat) : Nat × Bool :=
  ((n + 2) % 2 ^ 32, toS32 n < 0)

/-- Present outcome, from `GPUDevice::PresentResult`. -/
inductive PresentResult where
  | ok
  | skipPresent
  | deviceLost
  | exclusiveFullscreenLost
deriving DecidableEq, Repr

/-- State change of one `GPUThread::Internal::PresentFrame` call
(gpu_thread.cpp lines 980-1057), restricted to the skip logic and the
`skipped_present_count` counter.  `backendRes` is the result the
backend/device present would return when actually attempted.
Returns (frame actually presented?, new skipped_present_count). -/
def PresentFrame (hasSwapChain allowSkip shouldSkip : Bool)
    (backendRes : PresentResult) (count : Nat) : Bool × Nat :=
  let skip := !hasSwapChain ||
    (allowSkip && shouldSkip && decide (count < MAX_SKIPPED_PRESENT_COUNT))
  let pres := if skip then PresentResult.skipPresent else backendRes
  if pres = PresentResult.ok then (true, 0) else (false, count + 1)

/-- Iterated `PresentFrame` with forced `ShouldSkipPresentingFrame = true`,
`allow_skip = true`, an available swapchain and a succeeding backend
present: returns the list of presented?-flags, oldest first. -/
def presentTrace (count : Nat) : Nat → List Bool
  | 0 => []
  | n + 1 =>
    let r := PresentFrame true true true PresentResult.ok count
    r.1 :: presentTrace r.2 n

/-- Renderer choice, from `GPURenderer`: either the software rasterizer
or one of the hardware backends (spec section 9 treats the set as closed). -/
inductive GPURenderer where
  | software
  | hardware
deriving DecidableEq, Repr

/-- Outcome of `GPUThread::HandleGPUDeviceLost`. -/
inductive LostOutcome where
  | fatal
  | recovered (fullscreen : Bool) (backendRecreated : Bool) (warned : Bool)
deriving DecidableEq, Repr

/-- Minimum interval between device-loss recoveries,
`MIN_TIME_BETWEEN_RESETS = 15.0f` seconds (gpu_thread.cpp line 578),
modelled in milliseconds. -/
def MIN_TIME_BETWEEN_RESETS_MS : Nat := 15000

/-- `GPUThread::HandleGPUDeviceLost` (gpu_thread.cpp lines 575-615).
Timestamps are in milliseconds; `last = 0` encodes "never reset", as in
the source where `s_last_gpu_reset_time` starts at 0.  If a previous
recovery happened less than 15 s ago the handler panics (fatal).
Otherwise the backend and device are destroyed and re-created for the
requested renderer with the fullscreen state captured before teardown;
on success a warning OSD message is emitted, on creation failure the
handler panics.  Returns (outcome, new `s_last_gpu_reset_time`). -/
def HandleGPUDeviceLost (last now : Nat) (isFullscreen : Bool)
    (requestedRenderer : Option GPURenderer) (recreateOk : Bool) :
    LostOutcome × Nat :=
  if last ≠ 0 ∧ now - last < MIN_TIME_BETWEEN_RESETS_MS then
    (LostOutcome.fatal, last)
  else if recreateOk then
    (LostOutcome.recovered isFullscreen requestedRenderer.isSome true, now)
  else
    (LostOutcome.fatal, now)

/-- Result of `GPUThread::CreateGPUBackendOnThread`. -/
structure BackendCreateResult where
  ok : Bool
  osdWarning : Bool
  requestedRenderer : Option GPURenderer
  finalRenderer : GPURenderer
  errorPropagated : Bool
deriving DecidableEq, Repr

/-- `GPUThread::CreateGPUBackendOnThread` (gpu_thread.cpp lines 623-662).
`hwOk` / `swOk` give the result `Initialize` would return for the
hardware and software backends; `requested` is the incoming
`s_state.requested_renderer`.  A hardware backend whose initialization
fails produces an OSD warning, records Software as the requested
renderer and falls back to the software backend; failure is reported
(error propagated, `false` returned) only if that fallback also fails. -/
def CreateGPUBackendOnThread (renderer : GPURenderer) (hwOk swOk : Bool)
    (requested : Option GPURenderer) : BackendCreateResult :=
  let isHardware := renderer ≠ GPURenderer.software
  let okay := if isHardware then hwOk else swOk
  if okay then
    ⟨true, false, requested, renderer, false⟩
  else if isHardware then
    if swOk then
      ⟨true, true, some GPURenderer.software, GPURenderer.software, false⟩
    else
      ⟨false, true, some GPURenderer.software, GPURenderer.software, true⟩
  else
    ⟨false, false, requested, renderer, true⟩

/-- `GPUThread::StopFullscreenUI` (gpu_thread.cpp lines 182-192): the
value of the worker's `requested_fullscreen_ui` flag after the
operation completes.  When a system is valid, the enqueued async call
executes `s_state.requested_fullscreen_ui = true;` (line 187).
Otherwise `Reconfigure(..., start_fullscreen_ui = false, ...)` runs
`ReconfigureOnThread`, whose line 669 sets the flag to
`cmd->start_fullscreen_ui.value_or(previous)`, i.e. `false`. -/
def StopFullscreenUIFlag (systemValid : Bool) (_prev : Bool) : Bool :=
  if systemValid then true else false

/-- Command type tags, mirroring `GPUBackendCommandType`: the four
worker-control values handled by the `switch` in the GPU thread loop,
and a family `backendCmd k` for every value above `Shutdown`, which the
loop forwards to `GPUBackend::HandleCommand` (gpu_thread.cpp line 411). -/
inductive GPUCmdType where
  | wraparound
  | asyncCall
  | reconfigure
  | shutdownCmd
  | backendCmd (k : Nat)
deriving DecidableEq, Repr

/-- A command slot as seen by the consumer: its type tag and its total
size in bytes (already 4-byte aligned, header included). -/
structure GPUCmd where
  type : GPUCmdType
  size : Nat
deriving DecidableEq, Repr

/-- Result of one batch of the consumer loop. -/
structure BatchResult where
  dispatched : List GPUCmd
  published : List Nat
  finalRead : Nat
  sawShutdown : Bool
deriving DecidableEq, Repr

/-- Shallow embedding of the inner batch loop of
`GPUThread::Internal::GPUThreadEntryPoint` (gpu_thread.cpp lines
404-459).  `buf o` is the command slot starting at ring offset `o`;
`write` is the snapshot taken at the top of the batch (already replaced
by `COMMAND_QUEUE_SIZE` by line 404 when a wraparound is pending);
`reloadWrite` is the value an acquire reload of `command_fifo_write_ptr`
would observe (used only by the `Wraparound` arm, line 423).
`dispatched` collects the slots forwarded to the backend's
`HandleCommand`; `published` collects every value stored to
`command_fifo_read_ptr` with release ordering, newest first appended in
program order.  Runs out of fuel to `none` (the real loop terminates
because sizes are positive; claims are stated fuel-generically). -/
def runBatch (fuel : Nat) (buf : Nat → GPUCmd) (reloadWrite : Nat)
    (read write : Nat) : Option BatchResult :=
  match fuel with
  | 0 => none
  | fuel + 1 =>
    if read < write then
      let cmd := buf read
      let read2 := read + cmd.size
      match cmd.type with
      | GPUCmdType.backendCmd _ =>
        (runBatch fuel buf reloadWrite read2 write).map fun r =>
          ⟨cmd :: r.dispatched, r.published, r.finalRead, r.sawShutdown⟩
      | GPUCmdType.wraparound =>
        (runBatch fuel buf reloadWrite 0 reloadWrite).map fun r =>
          ⟨r.dispatched, 0 :: r.published, r.finalRead, r.sawShutdown⟩
      | GPUCmdType.asyncCall =>
        runBatch fuel buf reloadWrite read2 write
      | GPUCmdType.reconfigure =>
        runBatch fuel buf reloadWrite read2 write
      | GPUCmdType.shutdownCmd =>
        some ⟨[], [read2], read2, true⟩
    else
      some ⟨[], [read], read, false⟩

end GPUThread

namespace GPU_SW

/-- Modelled from the spec: VRAM is a 1024x512 array of 16-bit pixels
(spec section 3); the constants `VRAM_WIDTH`/`VRAM_HEIGHT` are declared
in gpu_types.h, which is not part of the provided sources. -/
def VRAM_WIDTH : Nat := 1024

/-- Modelled from the spec: see `VRAM_WIDTH`. -/
def VRAM_HEIGHT : Nat := 512

/-- The four host pixel formats used for display readout
(`GPUTexture::Format`). -/
inductive TexFormat where
  | RGBA5551
  | RGB565
  | RGBA8
  | BGRA8
deriving DecidableEq, Repr

/-- A 16-bit VRAM word load from one row of VRAM: `row i` is the raw
cell content at column `i`; the `u16` type of `g_vram` bounds it below
2^16. -/
def word (row : Nat → Nat) (i : Nat) : Nat := row i % 65536

/-- One output pixel of the wrapping slow path of `GPU_SW::CopyOut24Bit`
(gpu_sw.cpp lines 438-462) for the row selected by the outer loop:
`offset = src_x + ((skip_x + col) * 3) / 2`, two adjacent 16-bit words
are fetched with column wrap mod `VRAM_WIDTH`, combined and shifted by
`(col & 1) * 8`, then packed for the display format.  For the 16-bit
formats the source stores through a `u16*`, hence the final mod 2^16;
for the 32-bit formats the arithmetic never exceeds 2^32. -/
def slowPixel24 (fmt : TexFormat) (row : Nat → Nat) (src_x skip_x col : Nat) : Nat :=
  let offset := src_x + ((skip_x + col) * 3) / 2
  let s0 := word row (offset % VRAM_WIDTH)
  let s1 := word row ((offset + 1) % VRAM_WIDTH)
  let shift := (col % 2) * 8
  let rgb := ((s1 <<< 16) ||| s0) >>> shift
  match fmt with
  | TexFormat.RGBA8 => rgb ||| 0xFF000000
  | TexFormat.BGRA8 =>
    (rgb &&& 0x00FF00) ||| ((rgb &&& 0xFF) <<< 16) ||| ((rgb >>> 16) &&& 0xFF) ||| 0xFF000000
  | TexFormat.RGB565 =>
    (((rgb >>> 3) &&& 0x1F) ||| (((rgb >>> 10) <<< 5) &&& 0x7E0) |||
      (((rgb >>> 19) <<< 11) &&& 0x3E0000)) % 65536
  | TexFormat.RGBA5551 =>
    (((rgb >>> 3) &&& 0x1F) ||| (((rgb >>> 11) <<< 5) &&& 0x3E0) |||
      (((rgb >>> 19) <<< 10) &&& 0x1F0000)) % 65536

/-- Byte `i` (0-based, `i < 2 * VRAM_WIDTH`) of one VRAM row viewed as a
little-endian byte stream, as the fast path's `reinterpret_cast<const
u8*>` does on the little-endian hosts the code targets. -/
def byteAt (row : Nat → Nat) (i : Nat) : Nat :=
  (word row (i / 2) >>> ((i % 2) * 8)) &&& 0xFF

/-- Little-endian assembly of the four bytes the fast path stores for
one 32-bit output pixel. -/
def fromBytesLE (a b c d : Nat) : Nat := a + 2 ^ 8 * b + 2 ^ 16 * c + 2 ^ 24 * d

/-- The per-pixel format conversion of the non-wrapping fast path of
`GPU_SW::CopyOut24Bit` (gpu_sw.cpp lines 377-423), applied to the three
bytes `r g b` of one packed 24-bit sample: RGBA8/BGRA8 store four bytes
(gpu_sw.cpp lines 383-386 and 395-398, assembled little-endian here);
RGB565/RGBA5551 store one `u16` (lines 408-409 and 419-420). -/
def fastConvert24 (fmt : TexFormat) (r g b : Nat) : Nat :=
  match fmt with
  | TexFormat.RGBA8 => fromBytesLE r g b 0xFF
  | TexFormat.BGRA8 => fromBytesLE b g r 0xFF
  | TexFormat.RGB565 => ((r >>> 3) <<< 11) ||| ((g >>> 2) <<< 5) ||| (b >>> 3)
  | TexFormat.RGBA5551 => ((r >>> 3) <<< 10) ||| ((g >>> 3) <<< 5) ||| (b >>> 3)

/-- The naive modulus reference the claim compares the slow path
against: the packed 24-bit triple of output column `col` starts at byte
offset `src_x * 2 + (skip_x + col) * 3` of the row's byte stream, each
byte offset reduced modulo the VRAM row stride `2 * VRAM_WIDTH = 2048`
bytes, converted with the fast path's format conversion. -/
def refPixel24 (fmt : TexFormat) (row : Nat → Nat) (src_x skip_x col : Nat) : Nat :=
  let base := src_x * 2 + (skip_x + col) * 3
  fastConvert24 fmt
    (byteAt row (base % (2 * VRAM_WIDTH)))
    (byteAt row ((base + 1) % (2 * VRAM_WIDTH)))
    (byteAt row ((base + 2) % (2 * VRAM_WIDTH)))

/-- The fast-path guard of `GPU_SW::CopyOut15Bit` (gpu_sw.cpp line 320):
`(src_x + width) <= VRAM_WIDTH && (src_y + height) <= VRAM_HEIGHT`.
Note that, unlike the 24-bit guard on line 371, it does not scale
`height` by `line_skip`. -/
def copyOut15FastPathTaken (src_x src_y width height : Nat) : Bool :=
  decide (src_x + width ≤ VRAM_WIDTH) && decide (src_y + height ≤ VRAM_HEIGHT)

/-- Linear `g_vram` index read by the fast path of `GPU_SW::CopyOut15Bit`
for output row `r`, column `c` (gpu_sw.cpp lines 322-328):
`src_ptr = &g_vram[src_y * VRAM_WIDTH + src_x]` advanced by
`src_step = VRAM_WIDTH << line_skip` per output row. -/
def copyOut15FastReadIndex (src_x src_y line_skip r c : Nat) : Nat :=
  src_y * VRAM_WIDTH + src_x + r * (VRAM_WIDTH <<< line_skip) + c

/-- Size of `g_vram` in 16-bit cells. -/
def VRAM_CELLS : Nat := VRAM_WIDTH * VRAM_HEIGHT

end GPU_SW


namespace GPUThread

/-- Unfolding equation for one iteration of the allocation loop. -/
theorem allocLoop_succ (fuel read write size : Nat) :
    allocLoop (fuel + 1) read write size =
      if read > write then
        if read - write < size + SIZEOF_GPUBackendCommandType then none
        else some ⟨write, []⟩
      else
        if size + SIZEOF_GPUBackendCommand > COMMAND_QUEUE_SIZE - write then
          (allocLoop fuel read 0 size).map fun r =>
            ⟨r.offset, (write, COMMAND_QUEUE_SIZE - write) :: r.wraps⟩
        else
          some ⟨write, []⟩ := rfl

/-- Helper: when the tail cannot hold the (aligned) size plus the 8-byte
header slack, `AllocateCommand`'s loop writes one `Wraparound` dummy
covering exactly the tail `[write, COMMAND_QUEUE_SIZE)`, resets the
write cursor to 0 and places the command at offset 0 (given the
consumer has left enough room at the front of the ring). -/
theorem allocLoop_wrap (read w size : Nat) (hr : read ≤ w)
    (hbig : size + SIZEOF_GPUBackendCommand > COMMAND_QUEUE_SIZE - w)
    (hroom : size + SIZEOF_GPUBackendCommandType ≤ read) :
    allocLoop 3 read w size = some ⟨0, [(w, COMMAND_QUEUE_SIZE - w)]⟩ := by
  have h0 : 0 < read := by
    have h1 : 0 < size + SIZEOF_GPUBackendCommandType := by
      simp [SIZEOF_GPUBackendCommandType]
    omega
  rw [show (3 : Nat) = 2 + 1 from rfl, allocLoop_succ,
    if_neg (by omega : ¬read > w), if_pos hbig,
    show (2 : Nat) = 1 + 1 from rfl, allocLoop_succ,
    if_pos (by omega : read > 0), if_neg (by omega : ¬read - 0 < size + SIZEOF_GPUBackendCommandType)]
  rfl

/-- Helper: when the (aligned) size plus the 8-byte header slack fits in
the tail, the command is placed at the current write offset with no
wraparound. -/
theorem allocLoop_fit (read w size : Nat) (hr : read ≤ w)
    (hfit : size + SIZEOF_GPUBackendCommand ≤ COMMAND_QUEUE_SIZE - w) :
    allocLoop 3 read w size = some ⟨w, []⟩ := by
  rw [show (3 : Nat) = 2 + 1 from rfl, allocLoop_succ,
    if_neg (by omega : ¬read > w), if_neg (by omega)]

/-- C1: the claim as stated is FALSE on the code.  For
`read = write = COMMAND_QUEUE_SIZE - 24` and `size = 24 =
COMMAND_QUEUE_SIZE - write`, the claim asserts the command is placed at
offset `write` with no wraparound slot; `AllocateCommand`
(gpu_thread.cpp line 235) instead tests `size +
sizeof(GPUBackendCommand) > available_size`, which already holds for
`size = available_size`, so it writes a `Wraparound` dummy of size 24
at `write` and places the command at offset 0 ≠ write. -/
theorem AllocateCommand_tail_exact_wraps :
    AllocateCommand (COMMAND_QUEUE_SIZE - 24) (COMMAND_QUEUE_SIZE - 24) 24
        = some ⟨0, [(COMMAND_QUEUE_SIZE - 24, 24)]⟩ ∧
      (0 : Nat) ≠ COMMAND_QUEUE_SIZE - 24 := by
  constructor
  · have h : COMMAND_QUEUE_SIZE - (COMMAND_QUEUE_SIZE - 24) = 24 := by
      simp [COMMAND_QUEUE_SIZE]
    have h2 := allocLoop_wrap (COMMAND_QUEUE_SIZE - 24) (COMMAND_QUEUE_SIZE - 24) 24
      (le_refl _)
      (by rw [h]; simp [SIZEOF_GPUBackendCommand])
      (by simp [SIZEOF_GPUBackendCommandType, COMMAND_QUEUE_SIZE])
    rw [AllocateCommand, show alignUp4 24 = 24 from rfl, h2, h]
  · simp [COMMAND_QUEUE_SIZE]

/-- C1 (amended): for every write pointer `w` with `read ≤ w <
COMMAND_QUEUE_SIZE`, a slot whose 4-byte-aligned size satisfies
`alignUp4 size + sizeof(GPUBackendCommand) ≤ COMMAND_QUEUE_SIZE - w` is
placed at offset `w` without a `Wraparound` slot, and any aligned size
strictly greater than `COMMAND_QUEUE_SIZE - w - 8` (hence in particular
`size = COMMAND_QUEUE_SIZE - w` and `size = COMMAND_QUEUE_SIZE - w + 1`)
triggers wraparound: a `Wraparound` slot of size `COMMAND_QUEUE_SIZE -
w` is inserted at `w` and the command is placed at offset 0 (provided
the consumer has drained at least `alignUp4 size + 1` bytes at the
front of the ring, which the producer otherwise spins for). -/
theorem AllocateCommand_boundary (read w size : Nat) (hr : read ≤ w)
    (hw : w < COMMAND_QUEUE_SIZE) :
    (alignUp4 size + SIZEOF_GPUBackendCommand ≤ COMMAND_QUEUE_SIZE - w →
      AllocateCommand read w size = some ⟨w, []⟩) ∧
    (alignUp4 size + SIZEOF_GPUBackendCommand > COMMAND_QUEUE_SIZE - w →
      alignUp4 size + SIZEOF_GPUBackendCommandType ≤ read →
      AllocateCommand read w size = some ⟨0, [(w, COMMAND_QUEUE_SIZE - w)]⟩) := by
  constructor
  · intro hfit
    exact allocLoop_fit read w (alignUp4 size) hr hfit
  · intro hbig hroom
    exact allocLoop_wrap read w (alignUp4 size) hr hbig hroom

/-- Witness for `AllocateCommand_boundary`: at `read = 100`,
`w = COMMAND_QUEUE_SIZE - 32`, both arms fire on concrete sizes 24
(fits, placed at `w`) and 32 (wraps, placed at 0). -/
theorem AllocateCommand_boundary_witness :
    AllocateCommand 100 (COMMAND_QUEUE_SIZE - 32) 24
        = some ⟨COMMAND_QUEUE_SIZE - 32, []⟩ ∧
      AllocateCommand 100 (COMMAND_QUEUE_SIZE - 32) 32
        = some ⟨0, [(COMMAND_QUEUE_SIZE - 32, 32)]⟩ := by
  have h32 : COMMAND_QUEUE_SIZE - (COMMAND_QUEUE_SIZE - 32) = 32 := by
    simp [COMMAND_QUEUE_SIZE]
  constructor
  · exact (AllocateCommand_boundary 100 (COMMAND_QUEUE_SIZE - 32) 24
      (by simp [COMMAND_QUEUE_SIZE]) (by simp [COMMAND_QUEUE_SIZE])).1
      (by rw [h32]; simp [SIZEOF_GPUBackendCommand, alignUp4])
  · have h2 := (AllocateCommand_boundary 100 (COMMAND_QUEUE_SIZE - 32) 32
      (by simp [COMMAND_QUEUE_SIZE]) (by simp [COMMAND_QUEUE_SIZE])).2
      (by rw [h32]; simp [SIZEOF_GPUBackendCommand, alignUp4])
      (by simp [SIZEOF_GPUBackendCommandType, alignUp4])
    rw [h2, h32]

/-- Unfolding equation for one iteration of the consumer batch loop. -/
theorem runBatch_succ (fuel : Nat) (buf : Nat → GPUCmd) (reloadWrite read write : Nat) :
    runBatch (fuel + 1) buf reloadWrite read write =
      if read < write then
        match (buf read).type with
        | GPUCmdType.backendCmd _ =>
          (runBatch fuel buf reloadWrite (read + (buf read).size) write).map fun r =>
            ⟨buf read :: r.dispatched, r.published, r.finalRead, r.sawShutdown⟩
        | GPUCmdType.wraparound =>
          (runBatch fuel buf reloadWrite 0 reloadWrite).map fun r =>
            ⟨r.dispatched, 0 :: r.published, r.finalRead, r.sawShutdown⟩
        | GPUCmdType.asyncCall =>
          runBatch fuel buf reloadWrite (read + (buf read).size) write
        | GPUCmdType.reconfigure =>
          runBatch fuel buf reloadWrite (read + (buf read).size) write
        | GPUCmdType.shutdownCmd =>
          some ⟨[], [read + (buf read).size], read + (buf read).size, true⟩
      else
        some ⟨[], [read], read, false⟩ := rfl

/-- Helper for C2: no slot forwarded to the backend by a consumer batch
is a `Wraparound` slot. -/
theorem runBatch_no_wraparound_dispatched (fuel : Nat) :
    ∀ buf reloadWrite read write r,
      runBatch fuel buf reloadWrite read write = some r →
      ∀ c ∈ r.dispatched, c.type ≠ GPUCmdType.wraparound := by
  induction fuel with
  | zero =>
    intro buf rw read write r h
    simp [runBatch] at h
  | succ fuel ih =>
    intro buf rw read write r h
    rw [runBatch_succ] at h
    by_cases hlt : read < write
    · rw [if_pos hlt] at h
      split at h
      · rename_i k heq
        rcases Option.map_eq_some'.mp h with ⟨r2, hrec, hmap⟩
        subst hmap
        intro c hc
        rcases List.mem_cons.mp hc with hc | hc
        · subst hc
          rw [heq]
          simp
        · exact ih buf rw (read + (buf read).size) write r2 hrec c hc
      · rcases Option.map_eq_some'.mp h with ⟨r2, hrec, hmap⟩
        subst hmap
        intro c hc
        exact ih buf rw 0 rw r2 hrec c hc
      · exact ih buf rw (read + (buf read).size) write r h
      · exact ih buf rw (read + (buf read).size) write r h
      · cases h
        intro c hc
        simp at hc
    · rw [if_neg hlt] at h
      cases h
      intro c hc
      simp at hc

/-- C2: Wraparound conservation.  Producer side: when the tail cannot
hold the next command, the dummy `Wraparound` slot covers exactly the
remaining `COMMAND_QUEUE_SIZE - w` tail bytes and the write pointer is
reset to 0 (gpu_thread.cpp lines 237-243).  Consumer side: a batch
never forwards a `Wraparound` slot to the backend's `HandleCommand`,
and on reading a `Wraparound` slot the consumer sets `read` to 0,
publishes that 0 with release as its first store, and resumes from
offset 0 with the reloaded write pointer — so the tail bytes are
skipped exactly once (gpu_thread.cpp lines 420-428). -/
theorem wraparound_conservation :
    (∀ read w size, read ≤ w →
      alignUp4 size + SIZEOF_GPUBackendCommand > COMMAND_QUEUE_SIZE - w →
      alignUp4 size + SIZEOF_GPUBackendCommandType ≤ read →
      AllocateCommand read w size = some ⟨0, [(w, COMMAND_QUEUE_SIZE - w)]⟩) ∧
    (∀ fuel buf reloadWrite read write r,
      runBatch fuel buf reloadWrite read write = some r →
      ∀ c ∈ r.dispatched, c.type ≠ GPUCmdType.wraparound) ∧
    (∀ fuel buf reloadWrite read write r, read < write →
      (buf read).type = GPUCmdType.wraparound →
      runBatch (fuel + 1) buf reloadWrite read write = some r →
      r.published.head? = some 0 ∧
      runBatch fuel buf reloadWrite 0 reloadWrite
        = some ⟨r.dispatched, r.published.tail, r.finalRead, r.sawShutdown⟩) := by
  refine ⟨?_, ?_, ?_⟩
  · intro read w size hr hbig hroom
    exact allocLoop_wrap read w (alignUp4 size) hr hbig hroom
  · intro fuel
    exact runBatch_no_wraparound_dispatched fuel
  · intro fuel buf rw read write r hlt htype h
    rw [runBatch_succ, if_pos hlt, htype] at h
    rcases Option.map_eq_some'.mp h with ⟨r2, hrec, hmap⟩
    subst hmap
    exact ⟨rfl, hrec⟩

/-- Witness for `wraparound_conservation`: concrete instantiations of
its three parts — a wrap 16 bytes before the capacity boundary, a
one-command batch, and a batch that starts on a `Wraparound` slot. -/
theorem wraparound_conservation_witness :
    AllocateCommand 64 (COMMAND_QUEUE_SIZE - 16) 16
        = some ⟨0, [(COMMAND_QUEUE_SIZE - 16, 16)]⟩ ∧
      (∀ c ∈ ([⟨GPUCmdType.backendCmd 7, 32⟩] : List GPUCmd),
        c.type ≠ GPUCmdType.wraparound) ∧
      (⟨[], [0, 0], 0, false⟩ : BatchResult).published.head? = some 0 := by
  refine ⟨?_, ?_, ?_⟩
  · have h16 : COMMAND_QUEUE_SIZE - (COMMAND_QUEUE_SIZE - 16) = 16 := by
      simp [COMMAND_QUEUE_SIZE]
    have h2 := (wraparound_conservation).1 64 (COMMAND_QUEUE_SIZE - 16) 16
      (by simp [COMMAND_QUEUE_SIZE])
      (by rw [h16]; simp [SIZEOF_GPUBackendCommand, alignUp4])
      (by simp [SIZEOF_GPUBackendCommandType, alignUp4])
    rw [h2, h16]
  · have hbuf : runBatch 3 (fun _ => ⟨GPUCmdType.backendCmd 7, 32⟩) 0 32 64
        = some ⟨[⟨GPUCmdType.backendCmd 7, 32⟩], [64], 64, false⟩ := by
      decide
    exact (wraparound_conservation).2.1 3 (fun _ => ⟨GPUCmdType.backendCmd 7, 32⟩) 0 32 64
      _ hbuf
  · have hbuf : runBatch (1 + 1) (fun o => if o = 0 then ⟨GPUCmdType.wraparound, 64⟩
        else ⟨GPUCmdType.backendCmd 1, 4⟩) 0 0 64
        = some ⟨[], [0, 0], 0, false⟩ := by
      decide
    exact ((wraparound_conservation).2.2 1
      (fun o => if o = 0 then ⟨GPUCmdType.wraparound, 64⟩ else ⟨GPUCmdType.backendCmd 1, 4⟩)
      0 0 64 _ (by decide) (by decide) hbuf).1

end GPUThread

namespace GPUThread

/-- C4: `PresentFrame` skips rendering and presentation only while the
swapchain signals should-skip and fewer than
`MAX_SKIPPED_PRESENT_COUNT = 50` consecutive skips have occurred
(gpu_thread.cpp lines 982-984); `skipped_present_count` is reset to 0
on every successful present (line 1011); and with
`ShouldSkipPresentingFrame` forced true for 51 consecutive
`PresentFrame(allow_skip = true)` calls, the first 50 are skipped and
the 51st actually presents. -/
theorem PresentFrame_skip_cap :
    (∀ shouldSkip count,
      ((PresentFrame true true shouldSkip PresentResult.ok count).1 = false ↔
        (shouldSkip = true ∧ count < MAX_SKIPPED_PRESENT_COUNT))) ∧
    (∀ hasSC allowSkip shouldSkip res count,
      (PresentFrame hasSC allowSkip shouldSkip res count).1 = true →
      (PresentFrame hasSC allowSkip shouldSkip res count).2 = 0) ∧
    presentTrace 0 51 = List.replicate 50 false ++ [true] := by
  refine ⟨?_, ?_, ?_⟩
  · intro shouldSkip count
    cases shouldSkip <;>
      simp [PresentFrame, MAX_SKIPPED_PRESENT_COUNT] <;>
      split_ifs <;> simp_all
  · intro hasSC allowSkip shouldSkip res count h
    rw [PresentFrame] at h ⊢
    split_ifs at h ⊢ <;> simp_all
  · decide

/-- Witness for `PresentFrame_skip_cap`: a call that presents (no skip
requested) leaves the skip counter at 0. -/
theorem PresentFrame_skip_cap_witness :
    (PresentFrame true true false PresentResult.ok 5).2 = 0 :=
  PresentFrame_skip_cap.2.1 true true false PresentResult.ok 5 rfl

/-- C5: device-loss policy of `GPUThread::HandleGPUDeviceLost`
(gpu_thread.cpp lines 575-615).  On a first loss (`s_last_gpu_reset_time
= 0`) the worker destroys backend and device and re-creates both from
the most recent requested configuration, preserving the current
fullscreen state, and emits a warning; a second loss strictly less than
15 seconds after the previous recovery is fatal (`Panic`). -/
theorem HandleGPUDeviceLost_policy :
    (∀ now fs rr, HandleGPUDeviceLost 0 now fs rr true
        = (LostOutcome.recovered fs rr.isSome true, now)) ∧
    (∀ last now fs rr ok, last ≠ 0 → now - last < MIN_TIME_BETWEEN_RESETS_MS →
      HandleGPUDeviceLost last now fs rr ok = (LostOutcome.fatal, last)) := by
  constructor
  · intro now fs rr
    simp [HandleGPUDeviceLost]
  · intro last now fs rr ok hlast hwin
    rw [HandleGPUDeviceLost, if_pos ⟨hlast, hwin⟩]

/-- Witness for `HandleGPUDeviceLost_policy`: a first loss at t = 1000 ms
recovers (fullscreen preserved, warning emitted); a second loss at
t = 10000 ms, 9 s after the recovery, is fatal. -/
theorem HandleGPUDeviceLost_policy_witness :
    HandleGPUDeviceLost 0 1000 true (some GPURenderer.hardware) true
        = (LostOutcome.recovered true true true, 1000) ∧
      HandleGPUDeviceLost 1000 10000 true (some GPURenderer.hardware) true
        = (LostOutcome.fatal, 1000) :=
  ⟨HandleGPUDeviceLost_policy.1 1000 true (some GPURenderer.hardware),
    HandleGPUDeviceLost_policy.2 1000 10000 true (some GPURenderer.hardware) true
      (by decide) (by decide)⟩

/-- C6: hardware-backend fallback in `GPUThread::CreateGPUBackendOnThread`
(gpu_thread.cpp lines 623-662): when a hardware renderer is requested
and its initialization fails, the software backend is constructed and
initialized instead, Software is recorded as the requested renderer and
an OSD warning is surfaced; `false` is returned, with the error
propagated, only if the software fallback also fails to initialize. -/
theorem CreateGPUBackendOnThread_fallback :
    (∀ swOk req, CreateGPUBackendOnThread GPURenderer.hardware false swOk req
        = ⟨swOk, true, some GPURenderer.software, GPURenderer.software, !swOk⟩) ∧
    (∀ hwOk swOk req,
      ((CreateGPUBackendOnThread GPURenderer.hardware hwOk swOk req).ok = false ↔
        (hwOk = false ∧ swOk = false))) := by
  constructor
  · intro swOk req
    cases swOk <;> rfl
  · intro hwOk swOk req
    cases hwOk <;> cases swOk <;> simp [CreateGPUBackendOnThread]

/-- C7: wake protocol of `GPUThread::WakeGPUThread` (gpu_thread.cpp
lines 302-308): the producer fetch-adds exactly 2 to the signed wake
counter (value change modelled; the release memory ordering itself is
outside the embedding) and posts the consumer wake semaphore iff the
value immediately before the add was negative; a sleeping consumer
(pattern of -1) is left with counter pattern 1, whose work magnitude
`GetThreadWakeCount` is positive. -/
theorem WakeGPUThread_protocol :
    (∀ n, n < 2 ^ 32 → (((WakeGPUThread n).2 = true) ↔ toS32 n < 0)) ∧
    (∀ n, n < 2 ^ 32 → toS32 n < 2 ^ 31 - 2 →
      toS32 (WakeGPUThread n).1 = toS32 n + 2) ∧
    WakeGPUThread SLEEPING_PATTERN = (1, true) ∧
    0 < GetThreadWakeCount (WakeGPUThread SLEEPING_PATTERN).1 := by
  refine ⟨?_, ?_, ?_, ?_⟩
  · intro n hn
    simp [WakeGPUThread]
  · intro n hn hnotop
    rw [WakeGPUThread]
    simp only [toS32] at *
    split_ifs at * <;> push_cast at * <;> omega
  · decide
  · decide

/-- Witness for `WakeGPUThread_protocol`: the sleeping pattern satisfies
the post-iff, and a small positive count advances by exactly 2. -/
theorem WakeGPUThread_protocol_witness :
    (((WakeGPUThread SLEEPING_PATTERN).2 = true) ↔ toS32 SLEEPING_PATTERN < 0) ∧
      toS32 (WakeGPUThread 4).1 = toS32 4 + 2 :=
  ⟨WakeGPUThread_protocol.1 SLEEPING_PATTERN (by decide),
    WakeGPUThread_protocol.2.1 4 (by decide) (by decide)⟩

/-- C8: `GPUThread::PushCommand` advances the write pointer by the
slot's size (u32 wrap) and signals the consumer iff the pending byte
count — the ring distance from `read` to the new `write`, accounting
for wraparound — has reached `THRESHOLD_TO_WAKE_GPU = 65536` bytes;
below the threshold it publishes without signaling (gpu_thread.cpp
lines 261-268). -/
theorem PushCommand_wake_threshold :
    (∀ read write size, (PushCommand read write size).1 = (write + size) % 2 ^ 32) ∧
    (∀ read write size, read ≤ COMMAND_QUEUE_SIZE →
      ((PushCommand read write size).2 = true ↔
        THRESHOLD_TO_WAKE_GPU ≤ ringDistance read ((write + size) % 2 ^ 32))) := by
  constructor
  · intro read write size
    rfl
  · intro read write size hread
    rw [PushCommand, ringDistance, GetPendingCommandSize]
    simp only [decide_eq_true_eq, ge_iff_le]
    split_ifs <;> omega

/-- Witness for `PushCommand_wake_threshold`: pushing a 65536-byte slot
into an empty ring reaches the threshold. -/
theorem PushCommand_wake_threshold_witness :
    (PushCommand 0 0 65536).2 = true ↔
      THRESHOLD_TO_WAKE_GPU ≤ ringDistance 0 ((0 + 65536) % 2 ^ 32) :=
  PushCommand_wake_threshold.2 0 0 65536 (by simp [COMMAND_QUEUE_SIZE])

/-- C9: the code is WRONG and the claim right.  The fast-path guard of
`GPU_SW::CopyOut15Bit` (gpu_sw.cpp line 320) checks only `src_y +
height <= VRAM_HEIGHT` without scaling by `line_skip`, while each
output row advances the source pointer by `VRAM_WIDTH << line_skip`
cells (line 323); the sibling 24-bit guard does scale (`src_y +
(height << line_skip)` on line 371).  At `src_x = 0, width = 1, src_y =
256, height = 256, line_skip = 1` the guard passes, yet output row 255,
column 0 reads VRAM cell index 784384 ≥ 1024 * 512, out of bounds of
`g_vram`. -/
theorem copyOut15_fast_guard_oob :
    GPU_SW.copyOut15FastPathTaken 0 256 1 256 = true ∧
      255 < 256 ∧ (0 : Nat) < 1 ∧
      GPU_SW.VRAM_CELLS ≤ GPU_SW.copyOut15FastReadIndex 0 256 1 255 0 := by
  decide

/-- C10: the code is WRONG and the claim right.  With a valid system,
`GPUThread::StopFullscreenUI` (gpu_thread.cpp line 187) enqueues an
async call whose body is `s_state.requested_fullscreen_ui = true;` —
the same body as `StartFullscreenUI` (line 175) — so after the async
call the worker still considers the fullscreen UI requested, the
opposite of stopping it.  Only the no-system path (`Reconfigure` with
`start_fullscreen_ui = false`, line 191, applied by
`ReconfigureOnThread` line 669) leaves the flag false. -/
theorem StopFullscreenUI_flag_stays_true :
    (∀ prev, StopFullscreenUIFlag true prev = true) ∧
      (∀ prev, StopFullscreenUIFlag false prev = false) :=
  ⟨fun _ => rfl, fun _ => rfl⟩

end GPUThread

namespace GPU_SW

/-- Disjoint bitwise-or is addition: when the low operand fits below
bit `n`, or-ing it under a multiple of `2 ^ n` is plain addition. -/
theorem n_lor_add (n a b : Nat) (h : b < 2 ^ n) : (2 ^ n * a) ||| b = 2 ^ n * a + b := by
  apply Nat.eq_of_testBit_eq
  intro j
  rw [Nat.testBit_lor, Nat.testBit_mul_pow_two_add a h j, Nat.testBit_mul_pow_two]
  by_cases hj : j < n
  · simp [hj, Nat.not_le.mpr hj]
  · have hb : b.testBit j = false :=
      Nat.testBit_lt_two_pow
        (lt_of_lt_of_le h (Nat.pow_le_pow_right (by norm_num) (Nat.le_of_not_lt hj)))
    simp [hj, hb, Nat.le_of_not_lt hj]

/-- Masking with `0xFF` is reduction mod 256. -/
theorem land255 (x : Nat) : x &&& 255 = x % 256 := by
  have h := Nat.and_pow_two_sub_one_eq_mod x 8
  norm_num at h
  exact h

/-- A mask positioned at bit offset `n` selects the corresponding bits
of the shifted operand. -/
theorem land_mask_shift (x n m : Nat) : x &&& (2 ^ n * m) = 2 ^ n * ((x >>> n) &&& m) := by
  apply Nat.eq_of_testBit_eq
  intro j
  rw [Nat.testBit_land, Nat.testBit_mul_pow_two, Nat.testBit_mul_pow_two]
  by_cases hj : j < n
  · simp [Nat.not_le.mpr hj]
  · have hnj : n + (j - n) = j := by omega
    simp [Nat.le_of_not_lt hj, Nat.testBit_land, Nat.testBit_shiftRight, hnj]

/-- Masking with `0xFF00` extracts the second-lowest byte in place. -/
theorem landFF00 (x : Nat) : x &&& 65280 = 2 ^ 8 * (x >>> 8 % 256) := by
  have h := land_mask_shift x 8 255
  norm_num [land255] at h
  exact h

/-- Or-ing a 32-bit value with the alpha mask `0xFF000000` forces bits
24-31 to one and keeps the low 24 bits. -/
theorem lor_ff000000 (x : Nat) (h : x < 2 ^ 32) :
    x ||| 4278190080 = 2 ^ 24 * 255 + x % 2 ^ 24 := by
  rw [show (4278190080 : Nat) = 2 ^ 24 * 255 by norm_num]
  apply Nat.eq_of_testBit_eq
  intro j
  rw [Nat.testBit_lor, Nat.testBit_mul_pow_two_add 255 (Nat.mod_lt _ (by norm_num)) j,
    Nat.testBit_mul_pow_two]
  by_cases hj : j < 24
  · rw [if_pos hj, Nat.testBit_mod_two_pow]
    simp [hj, Nat.not_le.mpr hj]
  · rw [if_neg hj]
    by_cases hj32 : j < 32
    · have h255 : (255 : Nat).testBit (j - 24) = true := by
        have h1 : 24 ≤ j := Nat.le_of_not_lt hj
        interval_cases j <;> decide
      simp [h255, Nat.le_of_not_lt hj]
    · have hx : x.testBit j = false :=
        Nat.testBit_lt_two_pow
          (lt_of_lt_of_le h (Nat.pow_le_pow_right (by norm_num) (Nat.le_of_not_lt hj32)))
      have h255f : (255 : Nat).testBit (j - 24) = false := by
        apply Nat.testBit_lt_two_pow
        have h8 : 8 ≤ j - 24 := by omega
        calc (255 : Nat) < 2 ^ 8 := by norm_num
          _ ≤ 2 ^ (j - 24) := Nat.pow_le_pow_right (by norm_num) h8
      simp [hx, h255f]

/-- Arithmetic form of the slow path's BGRA8 packing expression
(gpu_sw.cpp line 452). -/
theorem bgra8_pack (R : Nat) :
    (R &&& 65280) ||| ((R &&& 255) <<< 16) ||| ((R >>> 16) &&& 255) ||| 4278190080
      = R / 2 ^ 16 % 256 + 2 ^ 8 * (R / 2 ^ 8 % 256) + 2 ^ 16 * (R % 256) + 2 ^ 24 * 255 := by
  simp only [landFF00, land255, Nat.shiftLeft_eq, Nat.shiftRight_eq_div_pow]
  rw [Nat.lor_comm (2 ^ 8 * (R / 2 ^ 8 % 256)) (R % 256 * 2 ^ 16),
    mul_comm (R % 256) (2 ^ 16),
    n_lor_add 16 (R % 256) (2 ^ 8 * (R / 2 ^ 8 % 256)) (by omega),
    show 2 ^ 16 * (R % 256) + 2 ^ 8 * (R / 2 ^ 8 % 256)
        = 2 ^ 8 * (2 ^ 8 * (R % 256) + R / 2 ^ 8 % 256) from by ring,
    n_lor_add 8 (2 ^ 8 * (R % 256) + R / 2 ^ 8 % 256) (R / 2 ^ 16 % 256) (by omega),
    lor_ff000000 _ (by omega)]
  omega

/-- The slow path's word-pair assembly `(s1 << 16) | s0` is addition. -/
theorem lor16_eq_add (s0 s1 : Nat) (h0 : s0 < 65536) :
    (s1 <<< 16 ||| s0 : Nat) = 2 ^ 16 * s1 + s0 := by
  rw [Nat.shiftLeft_eq, mul_comm s1 (2 ^ 16), n_lor_add 16 s1 s0 (by omega)]

/-- Slow-path pixel equals the fast-conversion of the three stream
bytes: RGBA8 at even byte parity. -/
theorem copyOut24_core_rgba8_even (s0 s1 : Nat) (h0 : s0 < 65536) (h1 : s1 < 65536) :
    ((s1 <<< 16 ||| s0) >>> 0) ||| 4278190080
      = ((s0 >>> 0) &&& 255) + 2 ^ 8 * ((s0 >>> 8) &&& 255)
        + 2 ^ 16 * ((s1 >>> 0) &&& 255) + 2 ^ 24 * 255 := by
  rw [lor16_eq_add s0 s1 h0,
    Nat.shiftRight_zero, Nat.shiftRight_zero, Nat.shiftRight_zero,
    lor_ff000000 _ (by omega), land255, land255, land255,
    Nat.shiftRight_eq_div_pow]
  omega

/-- Slow-path pixel equals the fast-conversion of the three stream
bytes: RGBA8 at odd byte parity. -/
theorem copyOut24_core_rgba8_odd (s0 s1 : Nat) (h0 : s0 < 65536) (h1 : s1 < 65536) :
    ((s1 <<< 16 ||| s0) >>> 8) ||| 4278190080
      = ((s0 >>> 8) &&& 255) + 2 ^ 8 * ((s1 >>> 0) &&& 255)
        + 2 ^ 16 * ((s1 >>> 8) &&& 255) + 2 ^ 24 * 255 := by
  rw [lor16_eq_add s0 s1 h0, Nat.shiftRight_zero,
    lor_ff000000 _ (by
      have hd : (2 ^ 16 * s1 + s0) >>> 8 = (2 ^ 16 * s1 + s0) / 2 ^ 8 :=
        Nat.shiftRight_eq_div_pow _ 8
      omega),
    land255, land255, land255]
  simp only [Nat.shiftRight_eq_div_pow]
  omega

/-- Slow-path pixel equals the fast-conversion of the three stream
bytes: BGRA8 at even byte parity. -/
theorem copyOut24_core_bgra8_even (s0 s1 : Nat) (h0 : s0 < 65536) (h1 : s1 < 65536) :
    (((s1 <<< 16 ||| s0) >>> 0) &&& 65280) |||
        ((((s1 <<< 16 ||| s0) >>> 0) &&& 255) <<< 16) |||
        ((((s1 <<< 16 ||| s0) >>> 0) >>> 16) &&& 255) ||| 4278190080
      = ((s1 >>> 0) &&& 255) + 2 ^ 8 * ((s0 >>> 8) &&& 255)
        + 2 ^ 16 * ((s0 >>> 0) &&& 255) + 2 ^ 24 * 255 := by
  rw [lor16_eq_add s0 s1 h0]
  simp only [Nat.shiftRight_zero]
  rw [bgra8_pack (2 ^ 16 * s1 + s0)]
  simp only [land255, Nat.shiftRight_eq_div_pow]
  omega

/-- Slow-path pixel equals the fast-conversion of the three stream
bytes: BGRA8 at odd byte parity. -/
theorem copyOut24_core_bgra8_odd (s0 s1 : Nat) (h0 : s0 < 65536) (h1 : s1 < 65536) :
    (((s1 <<< 16 ||| s0) >>> 8) &&& 65280) |||
        ((((s1 <<< 16 ||| s0) >>> 8) &&& 255) <<< 16) |||
        ((((s1 <<< 16 ||| s0) >>> 8) >>> 16) &&& 255) ||| 4278190080
      = ((s1 >>> 8) &&& 255) + 2 ^ 8 * ((s1 >>> 0) &&& 255)
        + 2 ^ 16 * ((s0 >>> 8) &&& 255) + 2 ^ 24 * 255 := by
  rw [lor16_eq_add s0 s1 h0]
  simp only [Nat.shiftRight_zero]
  rw [show (2 ^ 16 * s1 + s0) >>> 8 = (2 ^ 16 * s1 + s0) / 2 ^ 8 from
      Nat.shiftRight_eq_div_pow _ 8]
  rw [bgra8_pack ((2 ^ 16 * s1 + s0) / 2 ^ 8)]
  simp only [land255, Nat.shiftRight_eq_div_pow, Nat.div_div_eq_div_mul]
  norm_num
  omega

/-- C3 (amended): for the two 32-bit output formats RGBA8 and BGRA8 and
every even `skip_x`, the wrapping slow path of `GPU_SW::CopyOut24Bit`
(gpu_sw.cpp lines 438-462) produces, pixel for pixel, the same output
as the naive reference that reads each packed 24-bit triple at byte
offset `src_x * 2 + (skip_x + col) * 3` modulo the 2048-byte VRAM row
stride and converts it with the fast path's format conversion — for
every VRAM row content, source column and output column.  The claim's
original universal statement is false: for RGB565/RGBA5551 the slow
path packs the channels differently from the fast path (the third
mask, 0x3E0000 resp. 0x1F0000, lies entirely above bit 15 and is
discarded by the u16 store), and for odd `skip_x` the parity shift
`(col & 1) * 8` (line 443) disagrees with the stream parity
`(skip_x + col) & 1`. -/
theorem CopyOut24_wrap_matches_naive (fmt : TexFormat)
    (hfmt : fmt = TexFormat.RGBA8 ∨ fmt = TexFormat.BGRA8)
    (row : Nat → Nat) (src_x skip_x col : Nat) (hsk : skip_x % 2 = 0) :
    slowPixel24 fmt row src_x skip_x col = refPixel24 fmt row src_x skip_x col := by
  have hw0 : row ((src_x + (skip_x + col) * 3 / 2) % 1024) % 65536 < 65536 :=
    Nat.mod_lt _ (by norm_num)
  have hw1 : row ((src_x + (skip_x + col) * 3 / 2 + 1) % 1024) % 65536 < 65536 :=
    Nat.mod_lt _ (by norm_num)
  by_cases hcol : col % 2 = 0
  · have e0 : (src_x * 2 + (skip_x + col) * 3) % (2 * 1024) / 2
        = (src_x + (skip_x + col) * 3 / 2) % 1024 := by omega
    have e0p : (src_x * 2 + (skip_x + col) * 3) % (2 * 1024) % 2 = 0 := by omega
    have e1 : (src_x * 2 + (skip_x + col) * 3 + 1) % (2 * 1024) / 2
        = (src_x + (skip_x + col) * 3 / 2) % 1024 := by omega
    have e1p : (src_x * 2 + (skip_x + col) * 3 + 1) % (2 * 1024) % 2 = 1 := by omega
    have e2 : (src_x * 2 + (skip_x + col) * 3 + 2) % (2 * 1024) / 2
        = (src_x + (skip_x + col) * 3 / 2 + 1) % 1024 := by omega
    have e2p : (src_x * 2 + (skip_x + col) * 3 + 2) % (2 * 1024) % 2 = 0 := by omega
    rcases hfmt with rfl | rfl
    · simp only [slowPixel24, refPixel24, byteAt, fastConvert24, fromBytesLE, word, VRAM_WIDTH]
      rw [e0, e0p, e1, e1p, e2, e2p, hcol]
      simp only [Nat.zero_mul, Nat.one_mul]
      exact copyOut24_core_rgba8_even _ _ hw0 hw1
    · simp only [slowPixel24, refPixel24, byteAt, fastConvert24, fromBytesLE, word, VRAM_WIDTH]
      rw [e0, e0p, e1, e1p, e2, e2p, hcol]
      simp only [Nat.zero_mul, Nat.one_mul]
      exact copyOut24_core_bgra8_even _ _ hw0 hw1
  · have hcol1 : col % 2 = 1 := by omega
    have e0 : (src_x * 2 + (skip_x + col) * 3) % (2 * 1024) / 2
        = (src_x + (skip_x + col) * 3 / 2) % 1024 := by omega
    have e0p : (src_x * 2 + (skip_x + col) * 3) % (2 * 1024) % 2 = 1 := by omega
    have e1 : (src_x * 2 + (skip_x + col) * 3 + 1) % (2 * 1024) / 2
        = (src_x + (skip_x + col) * 3 / 2 + 1) % 1024 := by omega
    have e1p : (src_x * 2 + (skip_x + col) * 3 + 1) % (2 * 1024) % 2 = 0 := by omega
    have e2 : (src_x * 2 + (skip_x + col) * 3 + 2) % (2 * 1024) / 2
        = (src_x + (skip_x + col) * 3 / 2 + 1) % 1024 := by omega
    have e2p : (src_x * 2 + (skip_x + col) * 3 + 2) % (2 * 1024) % 2 = 1 := by omega
    rcases hfmt with rfl | rfl
    · simp only [slowPixel24, refPixel24, byteAt, fastConvert24, fromBytesLE, word, VRAM_WIDTH]
      rw [e0, e0p, e1, e1p, e2, e2p, hcol1]
      simp only [Nat.zero_mul, Nat.one_mul]
      exact copyOut24_core_rgba8_odd _ _ hw0 hw1
    · simp only [slowPixel24, refPixel24, byteAt, fastConvert24, fromBytesLE, word, VRAM_WIDTH]
      rw [e0, e0p, e1, e1p, e2, e2p, hcol1]
      simp only [Nat.zero_mul, Nat.one_mul]
      exact copyOut24_core_bgra8_odd _ _ hw0 hw1

/-- Witness for `CopyOut24_wrap_matches_naive`: a concrete wrapping
readout (src_x = 1023, even skip, both parities) matches the naive
reference. -/
theorem CopyOut24_wrap_matches_naive_witness :
    slowPixel24 TexFormat.RGBA8 (fun i => (i * 7919 + 12345) % 65536) 1023 0 0
        = refPixel24 TexFormat.RGBA8 (fun i => (i * 7919 + 12345) % 65536) 1023 0 0 ∧
      slowPixel24 TexFormat.BGRA8 (fun i => (i * 7919 + 12345) % 65536) 1023 2 1
        = refPixel24 TexFormat.BGRA8 (fun i => (i * 7919 + 12345) % 65536) 1023 2 1 :=
  ⟨CopyOut24_wrap_matches_naive TexFormat.RGBA8 (Or.inl rfl)
      (fun i => (i * 7919 + 12345) % 65536) 1023 0 0 (by decide),
    CopyOut24_wrap_matches_naive TexFormat.BGRA8 (Or.inr rfl)
      (fun i => (i * 7919 + 12345) % 65536) 1023 2 1 (by decide)⟩

/-- C3: the claim as stated is FALSE on the code.  For the RGB565
output format, a wrapping rectangle (src_x = 1023, width = 2, so
src_x + width > 1024), skip_x = 0 and uniform VRAM words 31 (red = 31,
green = blue = 0), the slow path (gpu_sw.cpp line 456) yields 3 —
red packed into bits 4:0 and the third mask 0x3E0000 truncated by the
u16 store — while the fast path's conversion (lines 408-409) yields
6147 = (31 >> 3) << 11 | 31 >> 3.  The second conjunct shows the other
failure mode: for RGBA8 with odd skip_x = 1 the parity shift uses
`col & 1` instead of `(skip_x + col) & 1` and the pixel differs from
the reference. -/
theorem CopyOut24_wrap_mismatch :
    1023 + 2 > 1024 ∧
      slowPixel24 TexFormat.RGB565 (fun _ => 31) 1023 0 0
          ≠ refPixel24 TexFormat.RGB565 (fun _ => 31) 1023 0 0 ∧
      slowPixel24 TexFormat.RGBA8 (fun i => (i * 7919 + 12345) % 65536) 1023 1 0
          ≠ refPixel24 TexFormat.RGBA8 (fun i => (i * 7919 + 12345) % 65536) 1023 1 0 := by
  refine ⟨by decide, by decide, by decide⟩

end GPU_SW
